import Mathlib

/-!
# Verification of the nni_truth_graph fact-construction pipeline

Shallow embedding of the pipeline stages of the `nni_truth_graph` repository:
the Extraction & Deduplication Engine (`scripts/digest_articles.py`), the
Provenance Resolver (`scripts/hunt_provenance.py`), the Contradiction Detector
(`scripts/detect_contradictions_unified.py`), the Graph Publisher
(`scripts/sync_truth_graph.py`) and the Orchestrator (`scripts/run_pipeline.py`).

Relational rows are modelled as Lean structures, SQL queries as list filters,
and the per-row processing loops as pure functions over an explicit database
state.  External collaborators (the pgvector distance operator, the embedding
model, the entailment model, the web-search API) are parameters of the
functions that call them, exactly at the call boundary visible in the Python
source.  Machine floats (scores, trust values) are modelled as rationals;
timestamps and dates as natural numbers.
-/

/-- A float vector (a pgvector `vector(384)` value); floats modelled as `Rat`. -/
abbrev Vec := List Rat

/-- A row of the `articles` table, with the columns the pipeline reads/writes:
`id, url, title, published_date, processed_at, is_reference, trust_score`. -/
structure Article where
  id : Nat
  url : Option String := none
  title : Option String := none
  published_date : Option Nat := none
  processed_at : Option Nat := none
  is_reference : Bool := false
  trust_score : Rat := 0
deriving Repr, DecidableEq

/-- A row of the `extracted_facts` table.  `embedding` is `NULL`able; the
provenance columns `is_original, provenance_id, external_source_url,
original_source_id, checked_at` are written only by the Provenance Resolver. -/
structure ExtractedFact where
  id : Nat
  article_id : Option Nat := none
  subject : String := ""
  predicate : String := ""
  object : String := ""
  confidence : Rat := 1/2
  embedding : Option Vec := none
  is_original : Bool := false
  provenance_id : Option Nat := none
  external_source_url : Option String := none
  original_source_id : Option Nat := none
  checked_at : Option Nat := none
  created_at : Nat := 0
deriving Repr, DecidableEq

/-! ## Provenance Resolver — `scripts/hunt_provenance.py`

`ProvenanceHunter.hunt` selects up to 50 facts with `checked_at IS NULL AND
embedding IS NOT NULL`, and for each fact: looks up the `published_date` of its
source article (`get_fact_date`), skips the fact entirely when that date is
missing, otherwise walks the distance-ordered semantic-neighbor list (the
"time travel" loop), optionally performs one external search, and finally
updates the row's provenance columns and stamps `checked_at`.
-/

/-- One step of the "Time Travel Analysis" loop of `ProvenanceHunter.hunt`
(lines 108-114): state is `(original_id, is_original, earliest_date)`; a
neighbor whose article date exists and is strictly earlier than the current
`earliest_date` becomes the new provisional original. -/
def ttStep (factDate : Nat → Option Nat) (st : Nat × Bool × Nat) (nid : Nat) :
    Nat × Bool × Nat :=
  match factDate nid with
  | some d => if d < st.2.2 then (nid, false, d) else st
  | none => st

/-- The whole "Time Travel Analysis" loop: fold `ttStep` over the neighbor list
(which the SQL query returns ordered by ascending vector distance), starting
from `(cid, True, my_date)`. -/
def timeTravel (factDate : Nat → Option Nat) (cid : Nat) (myDate : Nat)
    (neighbors : List Nat) : Nat × Bool × Nat :=
  neighbors.foldl (ttStep factDate) (cid, true, myDate)

/-- The values written by the final `UPDATE extracted_facts SET is_original,
provenance_id, external_source_url, original_source_id, checked_at = NOW()`
of `ProvenanceHunter.hunt` (lines 172-180). -/
structure HuntUpdate where
  is_original : Bool
  provenance_id : Option Nat
  external_source_url : Option String
  original_source_id : Option Nat
  checked : Bool
deriving Repr, DecidableEq

/-- The per-fact body of `ProvenanceHunter.hunt` after the candidate has been
selected.  `factDate nid` models `get_fact_date(nid)`; `articleOf nid` models
`SELECT article_id FROM extracted_facts WHERE id = nid`; `neighbors` is the
id list returned by the vector query (distance-ordered, `id != cid`,
distance < 0.15); `externalHit` is the URL returned by
`check_external_provenance` (`None` when no key, no date, no organic result,
or a request error); `refId` is the id of the reference article materialized
for that URL (`None` when its insert failed).  Returns `none` when the fact is
skipped without any write (no article date), else the row update performed. -/
def huntStep (factDate articleOf : Nat → Option Nat) (cid : Nat)
    (myDate : Option Nat) (neighbors : List Nat)
    (externalHit : Option String) (refId : Option Nat) : Option HuntUpdate :=
  match myDate with
  | none => none
  | some d =>
    let tt := timeTravel factDate cid d neighbors
    let originalId := tt.1
    let isOrig0 := tt.2.1
    let extUrl : Option String := if isOrig0 then externalHit else none
    let isOrig : Bool := isOrig0 && extUrl.isNone
    let extDbId : Option Nat := if extUrl.isSome then refId else none
    let finalSource : Option Nat :=
      match extDbId with
      | some e => some e
      | none =>
        if !isOrig && originalId ≠ cid then articleOf originalId
        else if isOrig then articleOf cid
        else none
    let provIdVal : Option Nat :=
      if !isOrig && extUrl.isNone then some originalId else none
    some ⟨isOrig, provIdVal, extUrl, finalSource, true⟩

/-- `get_fact_date`: `published_date` of the article joined through
`article_id`; `NULL` dates and missing rows both come back as `None`. -/
def getFactDate (articles : List Article) (f : ExtractedFact) : Option Nat :=
  match f.article_id with
  | none => none
  | some aid =>
    match articles.find? (fun a => a.id = aid) with
    | none => none
    | some a => a.published_date

/-- The relational state the Provenance Resolver touches. -/
structure HuntDB where
  facts : List ExtractedFact
  articles : List Article
deriving Repr, DecidableEq

/-- The candidate query of `ProvenanceHunter.hunt` (lines 69-74):
`SELECT ... FROM extracted_facts WHERE checked_at IS NULL AND embedding IS NOT
NULL LIMIT 50`. -/
def selectHuntCandidates (db : HuntDB) : List ExtractedFact :=
  (db.facts.filter (fun f => f.checked_at.isNone && f.embedding.isSome)).take 50

/-- Application of the `UPDATE` of `hunt` to the selected row. -/
def applyHuntUpdate (u : HuntUpdate) (now : Nat) (g : ExtractedFact) :
    ExtractedFact :=
  { g with
    is_original := u.is_original
    provenance_id := u.provenance_id
    external_source_url := u.external_source_url
    original_source_id := u.original_source_id
    checked_at := some now }

/-- `factDate` lookup at database level: join a fact id to its article date. -/
def factDateById (db : HuntDB) (nid : Nat) : Option Nat :=
  match db.facts.find? (fun g => g.id = nid) with
  | none => none
  | some g => getFactDate db.articles g

/-- `SELECT article_id FROM extracted_facts WHERE id = nid`. -/
def articleOfById (db : HuntDB) (nid : Nat) : Option Nat :=
  match db.facts.find? (fun g => g.id = nid) with
  | none => none
  | some g => g.article_id

/-- One full iteration of `hunt`'s candidate loop for fact `f` at database
level.  When `get_fact_date` yields nothing the iteration performs no write at
all (`continue` at line 87); otherwise the row is updated per `huntStep`. -/
def runHuntFact (db : HuntDB) (f : ExtractedFact) (neighbors : List Nat)
    (externalHit : Option String) (refId : Option Nat) (now : Nat) : HuntDB :=
  match huntStep (factDateById db) (articleOfById db) f.id (getFactDate db.articles f)
      neighbors externalHit refId with
  | none => db
  | some u =>
    { db with
      facts := db.facts.map (fun g => if g.id = f.id then applyHuntUpdate u now g else g) }

/-- **C5.** Every provenance resolution that completes (performs its
`UPDATE`) ends in exactly one of the two states: `is_original = true` with
both `provenance_id` and `external_source_url` null, or `is_original = false`
with exactly one of `provenance_id` / `external_source_url` set.  In
particular `is_original = true` implies `provenance_id` is null. -/
theorem hunt_termination_contract (factDate articleOf : Nat → Option Nat)
    (cid : Nat) (myDate : Option Nat) (neighbors : List Nat)
    (externalHit : Option String) (refId : Option Nat) (u : HuntUpdate)
    (h : huntStep factDate articleOf cid myDate neighbors externalHit refId = some u) :
    (u.is_original = true ∧ u.provenance_id = none ∧ u.external_source_url = none) ∨
    (u.is_original = false ∧
      ((u.provenance_id.isSome ∧ u.external_source_url = none) ∨
       (u.provenance_id = none ∧ u.external_source_url.isSome))) := by
  cases myDate with
  | none => simp [huntStep] at h
  | some d =>
    simp only [huntStep] at h
    rcases hb : (timeTravel factDate cid d neighbors).2.1 with _ | _
    · -- internal echo: is_original false, external check skipped
      simp only [hb] at h
      simp at h
      subst h
      simp
    · -- provisionally original: external check may override
      simp only [hb] at h
      cases externalHit with
      | none =>
        simp at h
        subst h
        simp
      | some url =>
        simp at h
        subst h
        simp

/-- Witness for `hunt_termination_contract` at a concrete input: a fact with
one strictly-earlier neighbor completes as an echo with `provenance_id` set
and no external URL. -/
theorem hunt_termination_contract_witness :
    (huntStep (fun n => if n = 2 then some 3 else some 7) (fun _ => some 4)
        1 (some 7) [2] none none) = some ⟨false, some 2, none, some 4, true⟩ ∧
    ((⟨false, some 2, none, some 4, true⟩ : HuntUpdate).is_original = false ∧
      (((⟨false, some 2, none, some 4, true⟩ : HuntUpdate).provenance_id.isSome ∧
        (⟨false, some 2, none, some 4, true⟩ : HuntUpdate).external_source_url = none) ∨
       ((⟨false, some 2, none, some 4, true⟩ : HuntUpdate).provenance_id = none ∧
        (⟨false, some 2, none, some 4, true⟩ : HuntUpdate).external_source_url.isSome))) := by
  refine ⟨by decide, ?_⟩
  have h := hunt_termination_contract (fun n => if n = 2 then some 3 else some 7)
    (fun _ => some 4) 1 (some 7) [2] none none ⟨false, some 2, none, some 4, true⟩ (by decide)
  rcases h with ⟨h1, _⟩ | ⟨h1, h2⟩
  · cases h1
  · exact ⟨h1, h2⟩

/-- Invariant of the time-travel fold (`timeTravel`): the final
`earliest_date` is a lower bound of the initial date and of every dated
neighbor, and either the state is untouched, or the final original is the
*first* neighbor in list order attaining the final earliest date (every
earlier-positioned dated neighbor has a strictly later date). -/
theorem ttFold_spec (fd : Nat → Option Nat) (ns : List Nat) (st : Nat × Bool × Nat) :
    (∀ n ∈ ns, ∀ d, fd n = some d → (ns.foldl (ttStep fd) st).2.2 ≤ d) ∧
    (ns.foldl (ttStep fd) st).2.2 ≤ st.2.2 ∧
    (ns.foldl (ttStep fd) st = st ∨
      ((ns.foldl (ttStep fd) st).2.1 = false ∧
        fd (ns.foldl (ttStep fd) st).1 = some (ns.foldl (ttStep fd) st).2.2 ∧
        (ns.foldl (ttStep fd) st).2.2 < st.2.2 ∧
        ∃ i, ∃ hi : i < ns.length, ns.get ⟨i, hi⟩ = (ns.foldl (ttStep fd) st).1 ∧
          ∀ n ∈ ns.take i, ∀ d, fd n = some d → (ns.foldl (ttStep fd) st).2.2 < d)) := by
  induction ns generalizing st with
  | nil => simp
  | cons n rest ih =>
    rw [List.foldl_cons]
    rcases hfd : fd n with _ | dn
    · have hst : ttStep fd st n = st := by simp [ttStep, hfd]
      rw [hst]
      obtain ⟨ih1, ih2, ih3⟩ := ih st
      refine ⟨?_, ih2, ?_⟩
      · intro m hm d hd
        rcases List.mem_cons.mp hm with rfl | hm'
        · simp [hfd] at hd
        · exact ih1 m hm' d hd
      · rcases ih3 with heq | ⟨hfalse, hattain, hlt, i, hi, hget, hfirst⟩
        · exact Or.inl heq
        · refine Or.inr ⟨hfalse, hattain, hlt, i + 1, by simpa using Nat.succ_lt_succ hi, ?_, ?_⟩
          · simpa using hget
          · intro m hm d hd
            rw [List.take_succ_cons] at hm
            rcases List.mem_cons.mp hm with rfl | hm'
            · simp [hfd] at hd
            · exact hfirst m hm' d hd
    · by_cases hcmp : dn < st.2.2
      · have hst : ttStep fd st n = (n, false, dn) := by simp [ttStep, hfd, hcmp]
        rw [hst]
        obtain ⟨ih1, ih2, ih3⟩ := ih (n, false, dn)
        have ih2' : (rest.foldl (ttStep fd) (n, false, dn)).2.2 ≤ dn := ih2
        refine ⟨?_, by omega, ?_⟩
        · intro m hm d hd
          rcases List.mem_cons.mp hm with rfl | hm'
          · rw [hfd] at hd
            cases hd
            exact ih2'
          · exact ih1 m hm' d hd
        · rcases ih3 with heq | ⟨hfalse, hattain, hlt, i, hi, hget, hfirst⟩
          · refine Or.inr ?_
            rw [heq]
            exact ⟨rfl, by rw [hfd], hcmp, 0, by simp, by simp [List.get], by simp⟩
          · have hlt' : (rest.foldl (ttStep fd) (n, false, dn)).2.2 < dn := hlt
            refine Or.inr ⟨hfalse, hattain, by omega, i + 1,
              by simpa using Nat.succ_lt_succ hi, by simpa using hget, ?_⟩
            intro m hm d hd
            rw [List.take_succ_cons] at hm
            rcases List.mem_cons.mp hm with rfl | hm'
            · rw [hfd] at hd
              cases hd
              exact hlt'
            · exact hfirst m hm' d hd
      · have hst : ttStep fd st n = st := by simp [ttStep, hfd, hcmp]
        rw [hst]
        obtain ⟨ih1, ih2, ih3⟩ := ih st
        refine ⟨?_, ih2, ?_⟩
        · intro m hm d hd
          rcases List.mem_cons.mp hm with rfl | hm'
          · rw [hfd] at hd
            cases hd
            omega
          · exact ih1 m hm' d hd
        · rcases ih3 with heq | ⟨hfalse, hattain, hlt, i, hi, hget, hfirst⟩
          · exact Or.inl heq
          · refine Or.inr ⟨hfalse, hattain, hlt, i + 1, by simpa using Nat.succ_lt_succ hi,
              by simpa using hget, ?_⟩
            intro m hm d hd
            rw [List.take_succ_cons] at hm
            rcases List.mem_cons.mp hm with rfl | hm'
            · rw [hfd] at hd
              cases hd
              omega
            · exact hfirst m hm' d hd

/-- **C4 (amended).** When a completed resolution sets `provenance_id = oid`,
then `oid` is an internal neighbor whose source-article date `e` strictly
predates the fact's date, `e` is the earliest date over all dated neighbors,
and `oid` is the *first neighbor in the neighbor-list order* (the list is
distance-ordered by the SQL query) attaining that earliest date: the tie
between neighbors sharing the identical earliest date is broken by list
position, not by lowest id. -/
theorem hunt_provenance_first_attainer (factDate articleOf : Nat → Option Nat)
    (cid : Nat) (d0 : Nat) (ns : List Nat) (externalHit : Option String)
    (refId : Option Nat) (u : HuntUpdate) (oid : Nat)
    (h : huntStep factDate articleOf cid (some d0) ns externalHit refId = some u)
    (hp : u.provenance_id = some oid) :
    ∃ e, factDate oid = some e ∧ e < d0 ∧
      (∀ n ∈ ns, ∀ d, factDate n = some d → e ≤ d) ∧
      ∃ i, ∃ hi : i < ns.length, ns.get ⟨i, hi⟩ = oid ∧
        ∀ n ∈ ns.take i, ∀ d, factDate n = some d → e < d := by
  simp only [huntStep] at h
  rcases hb : (timeTravel factDate cid d0 ns).2.1 with _ | _
  · simp only [hb] at h
    simp at h
    subst h
    simp at hp
    obtain ⟨h1, _, h3⟩ := ttFold_spec factDate ns (cid, true, d0)
    unfold timeTravel at hb hp
    rcases h3 with heq | ⟨_, hattain, hlt, i, hi, hget, hfirst⟩
    · rw [heq] at hb
      simp at hb
    · subst hp
      exact ⟨(ns.foldl (ttStep factDate) (cid, true, d0)).2.2, hattain, hlt, h1,
        i, hi, hget, hfirst⟩
  · simp only [hb] at h
    cases externalHit with
    | none =>
      simp at h
      subst h
      simp at hp
    | some url =>
      simp at h
      subst h
      simp at hp

/-- Concrete date table: fact 1 is dated 7, neighbors 9 and 2 are both dated
5 (an identical earliest date). -/
def fdC4 : Nat → Option Nat := fun n =>
  if n = 1 then some 7 else if n = 9 then some 5 else if n = 2 then some 5 else none

/-- Concrete `article_id` table for the same scenario. -/
def aoC4 : Nat → Option Nat := fun n =>
  if n = 9 then some 90 else if n = 2 then some 20 else some 10

/-- **C4 (counterexample).** Neighbors 9 and 2 share the identical earliest
date 5 and the lowest id of the two is 2, yet the resolver sets
`provenance_id = 9` — the neighbor that comes first in the distance-ordered
list — so the tie is *not* broken by lowest id as the claim states. -/
theorem hunt_tiebreak_cex :
    fdC4 9 = some 5 ∧ fdC4 2 = some 5 ∧ (2 : Nat) < 9 ∧
    (huntStep fdC4 aoC4 1 (some 7) [9, 2] none none).map
      (fun u => u.provenance_id) = some (some 9) := by decide

/-- Witness for `hunt_provenance_first_attainer` at the concrete tie
scenario: the chosen neighbor 9 attains the earliest date 5 at list
position 0. -/
theorem hunt_provenance_first_attainer_witness :
    ∃ e, fdC4 9 = some e ∧ e < 7 ∧
      (∀ n ∈ ([9, 2] : List Nat), ∀ d, fdC4 n = some d → e ≤ d) ∧
      ∃ i, ∃ hi : i < ([9, 2] : List Nat).length, ([9, 2] : List Nat).get ⟨i, hi⟩ = 9 ∧
        ∀ n ∈ ([9, 2] : List Nat).take i, ∀ d, fdC4 n = some d → e < d :=
  hunt_provenance_first_attainer fdC4 aoC4 1 7 [9, 2] none none
    ⟨false, some 9, none, some 90, true⟩ 9 (by decide) rfl

/-- **C10.** A selected fact whose source article has no `published_date` is
skipped with no database write at all: the whole relational state is
unchanged (so `is_original`, `provenance_id`, `external_source_url` and
`checked_at` are untouched), and the fact still satisfies the candidate query
(`checked_at IS NULL AND embedding IS NOT NULL`), so it is selected again on
every subsequent run. -/
theorem hunt_no_date_no_write (db : HuntDB) (f : ExtractedFact) (ns : List Nat)
    (externalHit : Option String) (refId : Option Nat) (now : Nat)
    (h : getFactDate db.articles f = none) :
    runHuntFact db f ns externalHit refId now = db ∧
    (f ∈ selectHuntCandidates db →
      f ∈ selectHuntCandidates (runHuntFact db f ns externalHit refId now)) := by
  have heq : runHuntFact db f ns externalHit refId now = db := by
    unfold runHuntFact
    rw [h]
    rfl
  exact ⟨heq, fun hm => by rw [heq]; exact hm⟩

/-- A concrete unresolved fact whose source article (id 1) has no
`published_date`. -/
def fC10 : ExtractedFact := { id := 10, article_id := some 1, embedding := some [1] }

/-- The database holding `fC10` and its dateless article. -/
def dbC10 : HuntDB := ⟨[fC10], [{ id := 1 }]⟩

/-- Witness for `hunt_no_date_no_write`: running the resolver on the dateless
fact leaves the concrete database untouched and the fact re-selectable. -/
theorem hunt_no_date_no_write_witness :
    runHuntFact dbC10 fC10 [] none none 5 = dbC10 ∧
    (fC10 ∈ selectHuntCandidates dbC10 →
      fC10 ∈ selectHuntCandidates (runHuntFact dbC10 fC10 [] none none 5)) :=
  hunt_no_date_no_write dbC10 fC10 [] none none 5 (by decide)

/-! ## Extraction & Deduplication Engine — `scripts/digest_articles.py`

`DigestEngine.process_batch` selects up to `BATCH_SIZE = 10` articles with
`processed_at IS NULL AND url IS NOT NULL`; per article it fetches content,
optionally updates `published_date` from page metadata, calls the extraction
collaborator, then per candidate tuple strips the three fields, requests an
embedding (`SemanticLinker.get_embedding`, which returns the vector or `None`
on any failure), runs the pgvector dedup query when an embedding string was
built, and inserts the fact; finally the article is marked processed.

The pgvector cosine-distance test `embedding <=> e < 0.05` is evaluated by
the database and is modelled as a parameter `near : Vec → Vec → Bool`; the
embedding collaborator's result (after the `if embedding:` truthiness test
that also discards an empty list) is a parameter of type `Option Vec`.
-/

/-- One `(subject, predicate, object, confidence)` tuple returned by the
extraction collaborator. -/
structure Candidate where
  subject : String := ""
  predicate : String := ""
  object : String := ""
  confidence : Rat := 1/2
deriving Repr, DecidableEq

/-- The relational state the digest engine touches; `nextId` models the
`extracted_facts` id sequence. -/
structure DigestDB where
  articles : List Article
  facts : List ExtractedFact
  nextId : Nat
deriving Repr, DecidableEq

/-- The dedup query (lines 377-382): `SELECT ... FROM extracted_facts WHERE
embedding <=> %s::vector < 0.05 LIMIT 1`; rows whose `embedding` is `NULL`
never match. -/
def dedupHit (near : Vec → Vec → Bool) (db : DigestDB) (emb : Vec) : Bool :=
  db.facts.any (fun f =>
    match f.embedding with
    | some e => near e emb
    | none => false)

/-- `INSERT INTO extracted_facts (article_id, subject, predicate, object,
confidence, embedding) VALUES (...)` (lines 396-400). -/
def insertFact (db : DigestDB) (aid : Nat) (subj pred obj : String)
    (conf : Rat) (emb : Option Vec) : DigestDB :=
  { db with
    facts := db.facts ++
      [{ id := db.nextId, article_id := some aid, subject := subj,
         predicate := pred, object := obj, confidence := conf, embedding := emb }]
    nextId := db.nextId + 1 }

/-- Python's `str.strip()`: drop whitespace from both ends.  (Lean's own
`String.trim` is not kernel-computable, so the stripping is spelled out over
the character list.) -/
def pyStrip (s : String) : String :=
  String.mk (((s.data.dropWhile Char.isWhitespace).reverse.dropWhile Char.isWhitespace).reverse)

/-- The per-candidate body of the fact loop (lines 350-407): strip the three
fields, drop the tuple when any is empty, otherwise look for a duplicate when
an embedding was produced and insert the fact — with a `NULL` embedding when
`emb` is `none`. -/
def processFact (near : Vec → Vec → Bool) (db : DigestDB) (aid : Nat)
    (c : Candidate) (emb : Option Vec) : DigestDB :=
  let subj := pyStrip c.subject
  let pred := pyStrip c.predicate
  let obj := pyStrip c.object
  if subj ≠ "" ∧ pred ≠ "" ∧ obj ≠ "" then
    match emb with
    | some e =>
      if dedupHit near db e then db
      else insertFact db aid subj pred obj c.confidence (some e)
    | none => insertFact db aid subj pred obj c.confidence none
  else db

/-- Outcome of the content-fetch step (fresh text via trafilatura, plus the
optional metadata date). -/
inductive FetchOutcome where
  | noContent : FetchOutcome
  | content (text : String) (dateFound : Option Nat) : FetchOutcome
deriving Repr, DecidableEq

/-- Outcome of the LLM extraction step: a raised/timed-out call, or a parsed
fact list (an empty or malformed response arrives as `ok []`). -/
inductive ExtractOutcome where
  | failed : ExtractOutcome
  | ok (cands : List Candidate) : ExtractOutcome
deriving Repr, DecidableEq

/-- `UPDATE articles SET processed_at = NOW() WHERE id = aid`. -/
def markProcessed (arts : List Article) (aid : Nat) (now : Nat) : List Article :=
  arts.map (fun a => if a.id = aid then { a with processed_at := some now } else a)

/-- `UPDATE articles SET published_date = %s WHERE id = aid`, only run when a
metadata date was found. -/
def updateDate (arts : List Article) (aid : Nat) (d : Option Nat) : List Article :=
  match d with
  | none => arts
  | some dd => arts.map (fun a => if a.id = aid then { a with published_date := some dd } else a)

/-- The canonical statement built for a candidate (`f"{subj} {pred} {obj}"`
over the stripped fields). -/
def candStatement (c : Candidate) : String :=
  pyStrip c.subject ++ " " ++ pyStrip c.predicate ++ " " ++ pyStrip c.object

/-- One article's handling inside `process_batch` (lines 281-414):
no-content and extraction-failure paths mark the article processed and move
on; the normal path folds the fact loop over the extracted candidates and
then marks the article processed.  `embedOf` models
`SemanticLinker.get_embedding` composed with the `if embedding:` test. -/
def processArticle (near : Vec → Vec → Bool) (embedOf : String → Option Vec)
    (db : DigestDB) (aid : Nat) (fetch : FetchOutcome) (ext : ExtractOutcome)
    (now : Nat) : DigestDB :=
  match fetch with
  | .noContent => { db with articles := markProcessed db.articles aid now }
  | .content _text dateFound =>
    let db1 := { db with articles := updateDate db.articles aid dateFound }
    match ext with
    | .failed => { db1 with articles := markProcessed db1.articles aid now }
    | .ok cands =>
      let db2 := cands.foldl (fun acc c => processFact near acc aid c (embedOf (candStatement c))) db1
      { db2 with articles := markProcessed db2.articles aid now }

/-- The batch query (lines 228-233): `SELECT id, url, title FROM articles
WHERE processed_at IS NULL AND url IS NOT NULL LIMIT 10`. -/
def selectDigestBatch (db : DigestDB) : List Article :=
  (db.articles.filter (fun a => a.processed_at.isNone && a.url.isSome)).take 10

/-- A pgvector distance test that never fires (no stored fact is near). -/
def nearNever : Vec → Vec → Bool := fun _ _ => false

/-- An empty digest database whose id sequence starts at 1. -/
def dbDigest0 : DigestDB := ⟨[], [], 1⟩

/-- A well-formed candidate tuple whose embedding request will fail. -/
def candC1 : Candidate :=
  { subject := "Japan", predicate := "hit", object := "quake", confidence := 1 }

/-- **C1 (counterexample).** A candidate with non-empty fields whose embedding
is missing (`get_embedding` failed, returned `None`, or returned an empty
vector) is *not* dropped: it is inserted into `extracted_facts` with a `NULL`
embedding. -/
theorem digest_missing_embedding_cex :
    (processFact nearNever dbDigest0 1 candC1 none).facts =
      [{ id := 1, article_id := some 1, subject := "Japan", predicate := "hit",
         object := "quake", confidence := 1, embedding := none }] := by decide

/-- **C1 (amended).** A candidate whose trimmed subject/predicate/object are
all non-empty is never dropped for embedding problems: with a missing
embedding it is inserted with a `NULL` embedding (the dedup query is skipped),
and with *any* returned vector — regardless of dimension or zeroness — it is
inserted as long as the dedup test does not fire.  Only an empty
subject/predicate/object drops a candidate. -/
theorem digest_invalid_embedding_not_dropped (near : Vec → Vec → Bool)
    (db : DigestDB) (aid : Nat) (c : Candidate)
    (hs : pyStrip c.subject ≠ "") (hp : pyStrip c.predicate ≠ "") (ho : pyStrip c.object ≠ "") :
    processFact near db aid c none =
      insertFact db aid (pyStrip c.subject) (pyStrip c.predicate) (pyStrip c.object) c.confidence none ∧
    (processFact near db aid c none).facts.length = db.facts.length + 1 ∧
    (∀ e : Vec, dedupHit near db e = false →
      (processFact near db aid c (some e)).facts.length = db.facts.length + 1) := by
  refine ⟨?_, ?_, ?_⟩
  · simp [processFact, hs, hp, ho]
  · simp [processFact, hs, hp, ho, insertFact]
  · intro e he
    simp [processFact, hs, hp, ho, he, insertFact]

/-- Witness for `digest_invalid_embedding_not_dropped` on the concrete
candidate `candC1` over the empty database. -/
theorem digest_invalid_embedding_not_dropped_witness :
    processFact nearNever dbDigest0 1 candC1 none =
      insertFact dbDigest0 1 (pyStrip candC1.subject) (pyStrip candC1.predicate)
        (pyStrip candC1.object) candC1.confidence none ∧
    (processFact nearNever dbDigest0 1 candC1 none).facts.length =
      dbDigest0.facts.length + 1 ∧
    (∀ e : Vec, dedupHit nearNever dbDigest0 e = false →
      (processFact nearNever dbDigest0 1 candC1 (some e)).facts.length =
        dbDigest0.facts.length + 1) :=
  digest_invalid_embedding_not_dropped nearNever dbDigest0 1 candC1
    (by decide) (by decide) (by decide)

/-- The fact loop never touches the `articles` table. -/
theorem processFact_articles (near : Vec → Vec → Bool) (db : DigestDB)
    (aid : Nat) (c : Candidate) (e : Option Vec) :
    (processFact near db aid c e).articles = db.articles := by
  rcases e with _ | v <;>
    · simp only [processFact]
      split
      · first
        | rfl
        | (split <;> rfl)
      · rfl

/-- Folding the fact loop over a candidate list never touches `articles`. -/
theorem foldlProcess_articles (near : Vec → Vec → Bool)
    (embedOf : String → Option Vec) (aid : Nat) (cands : List Candidate)
    (db : DigestDB) :
    (cands.foldl (fun acc c => processFact near acc aid c (embedOf (candStatement c))) db).articles
      = db.articles := by
  induction cands generalizing db with
  | nil => rfl
  | cons c cs ih => rw [List.foldl_cons, ih, processFact_articles]

/-- After `markProcessed`, the targeted article row carries the stamp. -/
theorem mem_markProcessed (arts : List Article) (aid now : Nat) (a : Article)
    (ha : a ∈ markProcessed arts aid now) (hid : a.id = aid) :
    a.processed_at = some now := by
  unfold markProcessed at ha
  obtain ⟨b, _, hba⟩ := List.mem_map.mp ha
  by_cases h : b.id = aid
  · rw [if_pos h] at hba
    subst hba
    rfl
  · rw [if_neg h] at hba
    subst hba
    exact absurd hid h

/-- **C9.** Whatever the outcome of content fetching and extraction — no
content, extraction failure, zero facts, or inserted facts — the handled
article ends with `processed_at` stamped, and therefore is never again
selected by the digest batch query. -/
theorem digest_marks_processed (near : Vec → Vec → Bool)
    (embedOf : String → Option Vec) (db : DigestDB) (aid : Nat)
    (fetch : FetchOutcome) (ext : ExtractOutcome) (now : Nat) (a : Article)
    (ha : a ∈ (processArticle near embedOf db aid fetch ext now).articles)
    (hid : a.id = aid) :
    a.processed_at = some now ∧
    a ∉ selectDigestBatch (processArticle near embedOf db aid fetch ext now) := by
  have hpa : a.processed_at = some now := by
    rcases fetch with _ | ⟨text, dateFound⟩
    · simp only [processArticle] at ha
      exact mem_markProcessed _ _ _ _ ha hid
    · rcases ext with _ | cands
      · simp only [processArticle] at ha
        exact mem_markProcessed _ _ _ _ ha hid
      · simp only [processArticle] at ha
        exact mem_markProcessed _ _ _ _ ha hid
  refine ⟨hpa, fun hmem => ?_⟩
  have hfil := List.take_subset 10 _ hmem
  have hp := (List.mem_filter.mp hfil).2
  rw [hpa] at hp
  simp at hp

/-- A one-article digest database for the `C9` witness. -/
def dbW9 : DigestDB := ⟨[{ id := 1, url := some "u" }], [], 1⟩

/-- The article row after its (contentless) handling. -/
def aW9 : Article := { id := 1, url := some "u", processed_at := some 5 }

/-- Witness for `digest_marks_processed`: a concrete article whose fetch
produced no content is stamped processed and drops out of the batch query. -/
theorem digest_marks_processed_witness :
    aW9.processed_at = some 5 ∧
    aW9 ∉ selectDigestBatch (processArticle nearNever (fun _ => none) dbW9 1
      FetchOutcome.noContent (ExtractOutcome.ok []) 5) :=
  digest_marks_processed nearNever (fun _ => none) dbW9 1
    FetchOutcome.noContent (ExtractOutcome.ok []) 5 aW9 (by decide) rfl

/-! ## Contradiction Detector — `scripts/detect_contradictions_unified.py`

`detect_contradictions` loads a baseline of high-value facts
(`trust_score >= 0.8`, older than 7 days, `is_original`) and a candidate set
(last 24h / last N days / all, always `is_original`), then for every
candidate × baseline pair other than a self-pair calls the entailment
collaborator `query_deberta(premise=base_text, hypothesis=check_text)`
directly — the row embeddings are fetched by both SQL queries but discarded
by the loop (`_` in the tuple unpacking), so no vector-distance pruning
happens.  Scores above 0.7 are collected and then upserted into
`contradiction_relationships` with `ON CONFLICT (fact1_id, fact2_id) DO
UPDATE`, where `fact1_id` is the *candidate* id and `fact2_id` the *baseline*
id, in detection orientation.

The collaborator is a parameter `nli : String → String → Option Rat`
returning `scores.get('contradiction', 0)` of a successful call, `none` on
failure. -/

/-- A fact row as fetched by the detector's two queries:
`id, subject, predicate, object, embedding, trust_score`. -/
structure BFact where
  id : Nat
  subject : String := ""
  predicate : String := ""
  object : String := ""
  embedding : Option Vec := none
  trust_score : Rat := 1
deriving Repr, DecidableEq

/-- `f"{subj} {pred} {obj}"` for a fetched fact row. -/
def factText (f : BFact) : String :=
  f.subject ++ " " ++ f.predicate ++ " " ++ f.object

/-- Accumulated state of the detection loop, instrumented with the list of
`(premise, hypothesis)` pairs actually sent to the entailment collaborator. -/
structure DetectResult where
  queried : List (String × String)
  contradictions : List (Nat × Nat × Rat)
  failedChecks : Nat
deriving Repr, DecidableEq

/-- One candidate × baseline comparison (lines 274-298): skip self-pairs,
otherwise call the collaborator with `premise = base_text` and
`hypothesis = check_text`; a failure counts as a failed check, a score above
0.7 is recorded as `(check_id, base_id, score)`. -/
def checkPair (nli : String → String → Option Rat) (acc : DetectResult)
    (check base : BFact) : DetectResult :=
  if check.id = base.id then acc
  else
    let premise := factText base
    let hypothesis := factText check
    let acc1 := { acc with queried := acc.queried ++ [(premise, hypothesis)] }
    match nli premise hypothesis with
    | none => { acc1 with failedChecks := acc1.failedChecks + 1 }
    | some score =>
      if score > 7/10 then
        { acc1 with contradictions := acc1.contradictions ++ [(check.id, base.id, score)] }
      else acc1

/-- Stage 3 of `detect_contradictions`: the nested loop over the candidate
set and the baseline set. -/
def detectPairs (nli : String → String → Option Rat)
    (checks bases : List BFact) : DetectResult :=
  checks.foldl (fun acc c => bases.foldl (fun a b => checkPair nli a c b) acc) ⟨[], [], 0⟩

/-- The pairs the spec's loop structure produces: for every candidate, every
baseline with a different id, in orientation `(premise = baseline text,
hypothesis = candidate text)`. -/
def allNonSelfPairs (checks bases : List BFact) : List (String × String) :=
  checks.flatMap (fun c =>
    (bases.filter (fun b => !(c.id = b.id))).map (fun b => (factText b, factText c)))

/-- A `checkPair` call extends the queried list by exactly the non-self pair. -/
theorem checkPair_queried (nli : String → String → Option Rat)
    (acc : DetectResult) (c b : BFact) :
    (checkPair nli acc c b).queried =
      acc.queried ++ if c.id = b.id then [] else [(factText b, factText c)] := by
  by_cases h : c.id = b.id
  · simp [checkPair, h]
  · simp only [checkPair, if_neg h]
    rcases nli (factText b) (factText c) with _ | s
    · simp
    · by_cases hs : s > 7/10 <;> simp [hs]

/-- The inner fold over baselines queries exactly the non-self pairs for the
current candidate, appended to what is already accumulated. -/
theorem innerFold_queried (nli : String → String → Option Rat) (c : BFact)
    (bases : List BFact) (acc : DetectResult) :
    (bases.foldl (fun a b => checkPair nli a c b) acc).queried =
      acc.queried ++
        (bases.filter (fun b => !(c.id = b.id))).map (fun b => (factText b, factText c)) := by
  induction bases generalizing acc with
  | nil => simp
  | cons b bs ih =>
    rw [List.foldl_cons, ih, checkPair_queried]
    by_cases h : c.id = b.id
    · simp [h]
    · simp [h]

/-- **C3 (amended).** The detector sends *every* candidate × baseline pair
except self-pairs to the entailment collaborator, with
`premise = baseline text` and `hypothesis = candidate text`; no
vector-distance pruning is applied before the call (the fetched embeddings
are discarded by the loop). -/
theorem detect_queries_all_nonself_pairs (nli : String → String → Option Rat)
    (checks bases : List BFact) :
    (detectPairs nli checks bases).queried = allNonSelfPairs checks bases := by
  unfold detectPairs allNonSelfPairs
  suffices h : ∀ acc : DetectResult,
      (checks.foldl (fun acc c => bases.foldl (fun a b => checkPair nli a c b) acc) acc).queried =
        acc.queried ++ checks.flatMap (fun c =>
          (bases.filter (fun b => !(c.id = b.id))).map (fun b => (factText b, factText c))) by
    simpa using h ⟨[], [], 0⟩
  intro acc
  induction checks generalizing acc with
  | nil => simp
  | cons c cs ih =>
    rw [List.foldl_cons, ih, innerFold_queried]
    simp

/-- Two facts with *identical* embeddings (vector distance 0 — the claim's
near-duplicate band must reject such a pair). -/
def bfA : BFact := { id := 1, subject := "x", predicate := "eq", object := "y", embedding := some [1, 0] }

/-- The baseline partner of `bfA`, same embedding. -/
def bfB : BFact := { id := 2, subject := "x", predicate := "eq", object := "z", embedding := some [1, 0] }

/-- **C3 (counterexample).** A candidate/baseline pair at vector distance 0
(identical embeddings, a near-duplicate that the claimed pruning band must
reject) is nevertheless sent to the entailment collaborator: no pruning
precedes the call. -/
theorem detect_no_pruning_cex :
    bfA.embedding = bfB.embedding ∧
    (detectPairs (fun _ _ => none) [bfA] [bfB]).queried = [("x eq z", "x eq y")] := by
  constructor
  · rfl
  · decide


/-- A row of `contradiction_relationships` as written by Stage 4 (lines
310-318): `(fact1_id, fact2_id, contradiction_score, detection_method)`,
where `fact1_id` is the candidate and `fact2_id` the baseline of the
detection. -/
structure ContradictionEdge where
  fact1_id : Nat
  fact2_id : Nat
  contradiction_score : Rat
  detection_method : String := "DeBERTa-MNLI"
deriving Repr, DecidableEq

/-- The `ON CONFLICT (fact1_id, fact2_id)` key test. -/
def edgeKeyMatch (f1 f2 : Nat) (e : ContradictionEdge) : Bool :=
  e.fact1_id = f1 && e.fact2_id = f2

/-- The `DO UPDATE SET contradiction_score = EXCLUDED.contradiction_score`
action applied to a row: rows with the conflicting key get the new score. -/
def updEdge (f1 f2 : Nat) (s : Rat) (e : ContradictionEdge) : ContradictionEdge :=
  if edgeKeyMatch f1 f2 e then { e with contradiction_score := s } else e

/-- `INSERT ... ON CONFLICT (fact1_id, fact2_id) DO UPDATE`: update the
existing row with that exact ordered key, else append a new row.  No
reordering of `(f1, f2)` happens anywhere. -/
def upsertEdge (tbl : List ContradictionEdge) (f1 f2 : Nat) (s : Rat) :
    List ContradictionEdge :=
  if tbl.any (edgeKeyMatch f1 f2) then tbl.map (updEdge f1 f2 s)
  else tbl ++ [{ fact1_id := f1, fact2_id := f2, contradiction_score := s }]

/-- Stage 4's save loop: upsert every detected `(check_id, base_id, score)`
triple in order. -/
def saveContradictions (tbl : List ContradictionEdge)
    (cs : List (Nat × Nat × Rat)) : List ContradictionEdge :=
  cs.foldl (fun t c => upsertEdge t c.1 c.2.1 c.2.2) tbl

/-- Number of stored edges carrying a given ordered key. -/
def keyCount (tbl : List ContradictionEdge) (f1 f2 : Nat) : Nat :=
  tbl.countP (edgeKeyMatch f1 f2)

/-- The score update leaves every key untouched. -/
theorem updEdge_key (f1 f2 : Nat) (s : Rat) (a b : Nat) (e : ContradictionEdge) :
    edgeKeyMatch a b (updEdge f1 f2 s e) = edgeKeyMatch a b e := by
  unfold updEdge
  by_cases hm : edgeKeyMatch f1 f2 e
  · rw [if_pos hm]
    rfl
  · rw [if_neg hm]

/-- The score update is idempotent on rows. -/
theorem updEdge_idem (f1 f2 : Nat) (s : Rat) (e : ContradictionEdge) :
    updEdge f1 f2 s (updEdge f1 f2 s e) = updEdge f1 f2 s e := by
  unfold updEdge
  by_cases hm : edgeKeyMatch f1 f2 e
  · rw [if_pos hm,
      if_pos (show edgeKeyMatch f1 f2 { e with contradiction_score := s } = true from hm)]
  · rw [if_neg hm, if_neg hm]


/-- **C2 (counterexample).** Detecting candidate 5 against baseline 3 with
score 0.81 stores the edge as `(fact1_id = 5, fact2_id = 3)` — *not*
canonically ordered with `fact_id_1 < fact_id_2` — and detecting the same
unordered pair in the two orientations (a fact can sit in both the candidate
and the baseline set) stores *two* edges, not one. -/
theorem contradiction_canonical_cex :
    ((saveContradictions [] [(5, 3, 81/100)]).map (fun e => (e.fact1_id, e.fact2_id))
        = [(5, 3)]) ∧
    (saveContradictions [] [(5, 3, 81/100), (3, 5, 81/100)]).length = 2 := by decide

/-- **C2 (amended).** The upsert is keyed on the *ordered* pair
`(fact1_id = candidate, fact2_id = baseline)` in detection orientation, with
no canonical reordering: on a table with unique keys, re-upserting the same
ordered pair with the same score is idempotent, leaves exactly one edge with
that key, and preserves key uniqueness — so detecting the same (candidate,
baseline) pair twice with score 0.81 yields one edge, while opposite
orientations of the same unordered pair may yield two. -/
theorem contradiction_upsert_keyed (tbl : List ContradictionEdge)
    (f1 f2 : Nat) (s : Rat) (h : ∀ a b, keyCount tbl a b ≤ 1) :
    upsertEdge (upsertEdge tbl f1 f2 s) f1 f2 s = upsertEdge tbl f1 f2 s ∧
    keyCount (upsertEdge tbl f1 f2 s) f1 f2 = 1 ∧
    (∀ a b, keyCount (upsertEdge tbl f1 f2 s) a b ≤ 1) := by
  by_cases hany : tbl.any (edgeKeyMatch f1 f2)
  · have hup : upsertEdge tbl f1 f2 s = tbl.map (updEdge f1 f2 s) := by
      simp only [upsertEdge, if_pos hany]
    have hcnt : ∀ a b : Nat,
        keyCount (tbl.map (updEdge f1 f2 s)) a b = keyCount tbl a b := by
      intro a b
      unfold keyCount
      rw [List.countP_map]
      exact List.countP_congr (fun e _ => by rw [Function.comp_apply, updEdge_key])
    have hone : keyCount tbl f1 f2 = 1 := by
      obtain ⟨e, he, hm⟩ := List.any_eq_true.mp hany
      have h1 : 0 < tbl.countP (edgeKeyMatch f1 f2) :=
        List.countP_pos_iff.mpr ⟨e, he, hm⟩
      have h2 := h f1 f2
      unfold keyCount at h2 ⊢
      omega
    have hany2 : (tbl.map (updEdge f1 f2 s)).any (edgeKeyMatch f1 f2) = true := by
      obtain ⟨e, he, hm⟩ := List.any_eq_true.mp hany
      exact List.any_eq_true.mpr ⟨updEdge f1 f2 s e, List.mem_map_of_mem _ he,
        by rw [updEdge_key]; exact hm⟩
    refine ⟨?_, by rw [hup, hcnt]; exact hone, fun a b => by rw [hup, hcnt]; exact h a b⟩
    rw [hup]
    have hstep : upsertEdge (tbl.map (updEdge f1 f2 s)) f1 f2 s =
        (tbl.map (updEdge f1 f2 s)).map (updEdge f1 f2 s) := by
      simp only [upsertEdge, if_pos hany2]
    rw [hstep, List.map_map]
    exact List.map_congr_left (fun e _ => updEdge_idem f1 f2 s e)
  · have hfalse : ∀ e ∈ tbl, edgeKeyMatch f1 f2 e = false := by
      simpa using hany
    have hnone : ∀ e ∈ tbl, ¬ edgeKeyMatch f1 f2 e = true := fun e he => by
      simp [hfalse e he]
    have hnew : edgeKeyMatch f1 f2
        { fact1_id := f1, fact2_id := f2, contradiction_score := s } = true := by
      simp [edgeKeyMatch]
    have happ : upsertEdge tbl f1 f2 s =
        tbl ++ [{ fact1_id := f1, fact2_id := f2, contradiction_score := s }] := by
      simp only [upsertEdge, if_neg hany]
    have hzero : keyCount tbl f1 f2 = 0 := List.countP_eq_zero.mpr hnone
    have hany2 : (tbl ++ [({ fact1_id := f1, fact2_id := f2, contradiction_score := s } : ContradictionEdge)]).any (edgeKeyMatch f1 f2) = true :=
      List.any_eq_true.mpr ⟨_, by simp, hnew⟩
    refine ⟨?_, ?_, ?_⟩
    · rw [happ]
      have hstep : upsertEdge (tbl ++ [({ fact1_id := f1, fact2_id := f2, contradiction_score := s } : ContradictionEdge)]) f1 f2 s =
          (tbl ++ [({ fact1_id := f1, fact2_id := f2, contradiction_score := s } : ContradictionEdge)]).map (updEdge f1 f2 s) := by
        simp only [upsertEdge, if_pos hany2]
      rw [hstep, List.map_append]
      have h1 : tbl.map (updEdge f1 f2 s) = tbl := by
        have := List.map_congr_left (l := tbl) (f := updEdge f1 f2 s) (g := id)
          (fun e he => by unfold updEdge; rw [if_neg (hnone e he)]; rfl)
        simpa using this
      rw [h1]
      have h2 : updEdge f1 f2 s { fact1_id := f1, fact2_id := f2, contradiction_score := s } =
          { fact1_id := f1, fact2_id := f2, contradiction_score := s } := by
        unfold updEdge
        rw [if_pos hnew]
      simp [h2]
    · rw [happ]
      unfold keyCount
      rw [List.countP_append]
      unfold keyCount at hzero
      simp [hzero, hnew]
    · intro a b
      rw [happ]
      unfold keyCount
      rw [List.countP_append]
      have hb := h a b
      unfold keyCount at hb
      by_cases hab : a = f1 ∧ b = f2
      · obtain ⟨rfl, rfl⟩ := hab
        unfold keyCount at hzero
        have : List.countP (edgeKeyMatch a b) [({ fact1_id := a, fact2_id := b, contradiction_score := s } : ContradictionEdge)] ≤ 1 := by
          simp [List.countP_cons, edgeKeyMatch]
        omega
      · have hz2 : List.countP (edgeKeyMatch a b) [({ fact1_id := f1, fact2_id := f2, contradiction_score := s } : ContradictionEdge)] = 0 := by
          apply List.countP_eq_zero.mpr
          intro e he hm
          simp at he
          subst he
          simp [edgeKeyMatch] at hm
          exact hab ⟨hm.1.symm, hm.2.symm⟩
        omega

/-- Witness for `contradiction_upsert_keyed` on the empty table with the
spec's example score 0.81. -/
theorem contradiction_upsert_keyed_witness :
    upsertEdge (upsertEdge [] 5 3 (81/100)) 5 3 (81/100) = upsertEdge [] 5 3 (81/100) ∧
    keyCount (upsertEdge [] 5 3 (81/100)) 5 3 = 1 ∧
    (∀ a b, keyCount (upsertEdge [] 5 3 (81/100)) a b ≤ 1) :=
  contradiction_upsert_keyed [] 5 3 (81/100) (fun a b => by simp [keyCount])

/-! ## Graph Publisher — `scripts/sync_truth_graph.py`

`TruthGraphSyncer.fetch_pg_data` runs three gated queries (facts, assertions,
articles); `sync` then aborts with an error diagnostic and result `False`
when the gated fact list or the gated article list is empty, and otherwise
serializes the payload for the graph-store bridge. -/

/-- A row of `article_topics`. -/
structure TopicRow where
  article_id : Nat
  topic_id : Nat
deriving Repr, DecidableEq

/-- The relational state the publisher reads. -/
structure PubDB where
  facts : List ExtractedFact
  articles : List Article
  article_topics : List TopicRow
deriving Repr, DecidableEq

/-- Quality Gate 1 (lines 54-59): `is_original = TRUE AND checked_at IS NOT
NULL`. -/
def factGate (f : ExtractedFact) : Bool :=
  f.is_original && f.checked_at.isSome

/-- The canonical-facts query of `fetch_pg_data`. -/
def fetchFacts (db : PubDB) : List ExtractedFact :=
  db.facts.filter factGate

/-- `t.topic_id IS NOT NULL` on the `LEFT JOIN article_topics`: the article
has at least one topic row. -/
def isClassified (db : PubDB) (aid : Nat) : Bool :=
  db.article_topics.any (fun t => t.article_id = aid)

/-- Quality Gate 2 as implemented (lines 77-85): `(processed_at IS NOT NULL
AND t.topic_id IS NOT NULL) OR is_reference = TRUE`. -/
def articleGate (db : PubDB) (a : Article) : Bool :=
  (a.processed_at.isSome && isClassified db a.id) || a.is_reference

/-- The articles query of `fetch_pg_data`. -/
def fetchArticles (db : PubDB) : List Article :=
  db.articles.filter (articleGate db)

/-- The assertion-edges query (lines 65-71): facts joined to an existing
article, with `article_id IS NOT NULL AND (is_original OR provenance_id IS
NOT NULL)`. -/
def assertionGate (db : PubDB) (f : ExtractedFact) : Bool :=
  f.article_id.isSome && db.articles.any (fun a => some a.id = f.article_id) &&
    (f.is_original || f.provenance_id.isSome)

/-- The fact-article assertions of `fetch_pg_data`. -/
def fetchAssertions (db : PubDB) : List ExtractedFact :=
  db.facts.filter (assertionGate db)

/-- Modelled from the spec: "Article publishable ⇔ topic-classified OR
is_reference=true" — the gate C6 claims, for comparison against
`articleGate`. -/
def specArticleGate (db : PubDB) (a : Article) : Bool :=
  isClassified db a.id || a.is_reference

/-- A topic-classified article (topic row 7) that is not yet processed and is
not a reference. -/
def aC6 : Article := { id := 1 }

/-- The publisher state containing only `aC6` and its topic row. -/
def pubDbC6 : PubDB := ⟨[], [aC6], [⟨1, 7⟩]⟩

/-- **C6 (counterexample).** An article that *is* topic-classified (and not a
reference) passes the claimed gate "topic-classified OR is_reference", yet the
publisher does not publish it, because the implemented gate additionally
requires `processed_at IS NOT NULL`. -/
theorem publisher_gate_cex :
    specArticleGate pubDbC6 aC6 = true ∧ aC6 ∈ pubDbC6.articles ∧
    fetchArticles pubDbC6 = [] := by decide

/-- **C6 (amended).** The publisher publishes a Fact iff `is_original = true`
and `checked_at` is not null (as claimed), and publishes an Article iff
`(processed_at is not null AND it is topic-classified) OR is_reference =
true` — the article gate carries an extra `processed_at` conjunct beyond the
claim; no row failing its gate appears in the published lists. -/
theorem publisher_gates (db : PubDB) (f : ExtractedFact) (a : Article) :
    (f ∈ fetchFacts db ↔
      f ∈ db.facts ∧ f.is_original = true ∧ f.checked_at ≠ none) ∧
    (a ∈ fetchArticles db ↔
      a ∈ db.articles ∧
        ((a.processed_at ≠ none ∧ isClassified db a.id = true) ∨ a.is_reference = true)) := by
  constructor
  · rw [fetchFacts, List.mem_filter, factGate]
    simp [Option.isSome_iff_ne_none, Bool.and_eq_true]
  · rw [fetchArticles, List.mem_filter, articleGate]
    simp [Option.isSome_iff_ne_none, Bool.and_eq_true, Bool.or_eq_true]

/-- Outcome of `TruthGraphSyncer.sync`: either the abort branch (lines
119-123, `"SYNC ABORTED: Insufficient data"`, return `False`) or the
completion branch that hands the payload to the graph-store bridge. -/
inductive SyncOutcome where
  | aborted : SyncOutcome
  | completed (facts : List ExtractedFact) (articles : List Article)
      (assertions : List ExtractedFact) : SyncOutcome
deriving Repr, DecidableEq

/-- The gating decision of `sync`: abort when the gated fact list or the
gated article list is empty, else publish the payload. -/
def syncRun (db : PubDB) : SyncOutcome :=
  let facts := fetchFacts db
  let articles := fetchArticles db
  if facts.isEmpty || articles.isEmpty then SyncOutcome.aborted
  else SyncOutcome.completed facts articles (fetchAssertions db)

/-- Assertion edges actually handed to the graph store by an outcome. -/
def publishedAssertions : SyncOutcome → List ExtractedFact
  | SyncOutcome.aborted => []
  | SyncOutcome.completed _ _ asserts => asserts

/-- **C7.** When the gated fact set or gated article set is empty, the sync
aborts — zero assertion edges are published — and this outcome is distinct
from any normal run (non-empty gates), including a normal run that happens to
publish zero assertion edges. -/
theorem publisher_empty_gate_aborts (db : PubDB)
    (h : fetchFacts db = [] ∨ fetchArticles db = []) :
    syncRun db = SyncOutcome.aborted ∧
    publishedAssertions (syncRun db) = [] ∧
    (∀ db2 : PubDB, fetchFacts db2 ≠ [] → fetchArticles db2 ≠ [] →
      syncRun db2 ≠ SyncOutcome.aborted) := by
  have habort : syncRun db = SyncOutcome.aborted := by
    unfold syncRun
    rcases h with h | h <;> rw [h] <;> simp
  refine ⟨habort, by rw [habort]; rfl, ?_⟩
  intro db2 h1 h2
  unfold syncRun
  rw [if_neg ?_]
  · simp
  · simp [List.isEmpty_iff, h1, h2]

/-- A publisher state whose fact gate passes nothing (no `checked_at`). -/
def pubDbC7 : PubDB := ⟨[{ id := 1, is_original := true }], [aC6], [⟨1, 7⟩]⟩

/-- Witness for `publisher_empty_gate_aborts`: a state with an original but
never provenance-checked fact aborts the sync with zero published edges. -/
theorem publisher_empty_gate_aborts_witness :
    syncRun pubDbC7 = SyncOutcome.aborted ∧
    publishedAssertions (syncRun pubDbC7) = [] ∧
    (∀ db2 : PubDB, fetchFacts db2 ≠ [] → fetchArticles db2 ≠ [] →
      syncRun db2 ≠ SyncOutcome.aborted) :=
  publisher_empty_gate_aborts pubDbC7 (Or.inl (by decide))

/-! ## Orchestrator — `scripts/run_pipeline.py`

`PipelineOrchestrator.__init__` initializes `last_run[stage] = time.time()`
for every stage; `start`'s loop runs every 30 seconds, skips stages with
`frequency == 0`, computes `elapsed = now - last_run[stage]` and triggers a
stage when `elapsed >= frequency`, setting `last_run[stage] = now` after the
attempt.  Times are seconds as naturals; `now - last_run` is Python
subtraction, equal to Nat subtraction whenever `now ≥ last_run`. -/

/-- One entry of `PIPELINE_STAGES`. -/
structure Stage where
  name : String
  scripts : List String
  frequency : Nat
  parallel : Bool
deriving Repr, DecidableEq

/-- The `PIPELINE_STAGES` table (lines 28-94). -/
def PIPELINE_STAGES : List Stage := [
  ⟨"1. Ingestion (Parallel)", ["ingest_rss.py", "ingest_gdelt.py"], 1800, true⟩,
  ⟨"2. Hydration (Scraping)", ["scrape_content_pro.py"], 1800, false⟩,
  ⟨"3. Classification", ["classify_topics_api.py"], 1800, false⟩,
  ⟨"4. Metadata & Trust", ["add_trust_scoring.py"], 3600, false⟩,
  ⟨"5. Extraction & Deduplication", ["digest_articles.py"], 300, false⟩,
  ⟨"6. Verification (Provenance)", ["hunt_provenance.py"], 600, false⟩,
  ⟨"7. Publication (Graph Sync)", ["sync_truth_graph.py"], 3600, false⟩,
  ⟨"8. QA (Contradiction Detection - Unified)", ["detect_contradictions_unified.py"], 21600, false⟩,
  ⟨"8.5. Backfill (Historical Contradictions - ONCE ON FIRST RUN)", ["detect_contradictions_unified.py"], 0, false⟩,
  ⟨"10. Maintenance (Archival)", ["archive_old_articles.py"], 86400, false⟩]

/-- `__init__` (lines 96-102): `last_run = {stage: time.time() for stage in
PIPELINE_STAGES}` — every stage's last-run is the boot instant. -/
def bootLastRun (now : Nat) : String → Nat := fun _ => now

/-- Whether one tick triggers a stage (lines 326-337): disabled stages
(`frequency == 0`) are skipped; otherwise trigger when
`now - last_run[stage] ≥ frequency`. -/
def stageFires (s : Stage) (lastRun now : Nat) : Bool :=
  s.frequency != 0 && decide (s.frequency ≤ now - lastRun)

/-- One scheduler tick at time `now`: the stages fired, and the updated
last-run map (`last_run[stage] = now` for each fired stage). -/
def tick (lr : String → Nat) (now : Nat) : (String → Nat) × List Stage :=
  let fired := PIPELINE_STAGES.filter (fun s => stageFires s (lr s.name) now)
  (fun n => if fired.any (fun s => s.name = n) then now else lr n, fired)

/-- How many of the ticks at the given times fire the named stage, running
the scheduler forward. -/
def countFires (name : String) : (String → Nat) → List Nat → Nat
  | _, [] => 0
  | lr, t :: ts =>
    (if ((tick lr t).2.any (fun s => s.name = name)) then 1 else 0) +
      countFires name (tick lr t).1 ts

/-- The name of the period-300 extraction stage. -/
def extractionStageName : String := "5. Extraction & Deduplication"

/-- The disabled (`frequency = 0`) backfill stage. -/
def backfillStage : Stage :=
  ⟨"8.5. Backfill (Historical Contradictions - ONCE ON FIRST RUN)", ["detect_contradictions_unified.py"], 0, false⟩

/-- `any` over a `filter` fuses into one `any`. -/
theorem any_filter_fuse {α : Type} (l : List α) (p q : α → Bool) :
    (l.filter p).any q = l.any (fun a => p a && q a) := by
  induction l with
  | nil => rfl
  | cons a as ih =>
    by_cases h : p a <;> simp [List.filter_cons, h, List.any_cons, ih]

/-- A tick fires the extraction stage exactly when 300 seconds have elapsed
since its last run. -/
theorem tick_fires_extraction (lr : String → Nat) (now : Nat) :
    ((tick lr now).2.any (fun s => s.name = extractionStageName)) =
      decide (300 ≤ now - lr extractionStageName) := by
  simp only [tick, any_filter_fuse, PIPELINE_STAGES, stageFires, extractionStageName,
    List.any_cons, List.any_nil]
  simp

/-- A tick updates the extraction stage's last-run exactly when it fired. -/
theorem tick_lr_extraction (lr : String → Nat) (now : Nat) :
    (tick lr now).1 extractionStageName =
      if 300 ≤ now - lr extractionStageName then now else lr extractionStageName := by
  simp only [tick, any_filter_fuse, PIPELINE_STAGES, stageFires, extractionStageName,
    List.any_cons, List.any_nil]
  by_cases h : 300 ≤ now - lr "5. Extraction & Deduplication" <;> simp [h]

/-- Single-stage residual scheduler for the period-300 stage. -/
def simpleCount (last : Nat) : List Nat → Nat
  | [] => 0
  | t :: ts => if 300 ≤ t - last then 1 + simpleCount t ts else simpleCount last ts

/-- Running the full scheduler, the extraction stage's fire count depends
only on its own last-run entry. -/
theorem countFires_extraction (ts : List Nat) (lr : String → Nat) :
    countFires extractionStageName lr ts = simpleCount (lr extractionStageName) ts := by
  induction ts generalizing lr with
  | nil => rfl
  | cons t rest ih =>
    rw [countFires, ih, tick_fires_extraction, tick_lr_extraction, simpleCount]
    by_cases h : 300 ≤ t - lr extractionStageName <;> simp [h]

/-- Unfolding step of `simpleCount` on a non-firing tick. -/
theorem simpleCount_cons_neg (last t : Nat) (ts : List Nat)
    (h : ¬ 300 ≤ t - last) : simpleCount last (t :: ts) = simpleCount last ts := by
  simp only [simpleCount, if_neg h]

/-- Unfolding step of `simpleCount` on a firing tick. -/
theorem simpleCount_cons_pos (last t : Nat) (ts : List Nat)
    (h : 300 ≤ t - last) : simpleCount last (t :: ts) = 1 + simpleCount t ts := by
  simp only [simpleCount, if_pos h]

/-- **C8.** Scheduling correctness of the orchestrator: (i) a stage with a
positive period never fires while elapsed time since its last run is strictly
below the period; (ii) the period-300 extraction stage, last run at `t0`,
fires exactly once over the 30-second ticks up to `t0 + 301` (the ticks at
`t0+30 … t0+300`; the next tick, `t0+330`, lies beyond `t0+301`); (iii) on
boot every `last_run` is initialized to now, so the first tick after a
restart fires nothing; (iv) a stage with period 0 never fires. -/
theorem orchestrator_scheduling :
    (∀ s ∈ PIPELINE_STAGES, ∀ lr : String → Nat, ∀ now : Nat,
      0 < s.frequency → now - lr s.name < s.frequency → s ∉ (tick lr now).2) ∧
    (∀ t0 : Nat, ∀ lr : String → Nat, lr extractionStageName = t0 →
      countFires extractionStageName lr
        [t0 + 30, t0 + 60, t0 + 90, t0 + 120, t0 + 150, t0 + 180, t0 + 210,
          t0 + 240, t0 + 270, t0 + 300] = 1) ∧
    (∀ now : Nat, (tick (bootLastRun now) now).2 = []) ∧
    (∀ lr : String → Nat, ∀ now : Nat, backfillStage ∉ (tick lr now).2) := by
  refine ⟨?_, ?_, ?_, ?_⟩
  · intro s _ lr now hpos hlt hmem
    have hf := (List.mem_filter.mp hmem).2
    simp only [stageFires, Bool.and_eq_true, decide_eq_true_eq, bne_iff_ne] at hf
    omega
  · intro t0 lr hlr
    rw [countFires_extraction, hlr]
    rw [simpleCount_cons_neg _ _ _ (by omega), simpleCount_cons_neg _ _ _ (by omega),
      simpleCount_cons_neg _ _ _ (by omega), simpleCount_cons_neg _ _ _ (by omega),
      simpleCount_cons_neg _ _ _ (by omega), simpleCount_cons_neg _ _ _ (by omega),
      simpleCount_cons_neg _ _ _ (by omega), simpleCount_cons_neg _ _ _ (by omega),
      simpleCount_cons_neg _ _ _ (by omega), simpleCount_cons_pos _ _ _ (by omega)]
    rfl
  · intro now
    simp [tick, bootLastRun, stageFires, PIPELINE_STAGES, Nat.sub_self]
  · intro lr now hmem
    have hf := (List.mem_filter.mp hmem).2
    simp [stageFires, backfillStage] at hf

/-- Witness for `orchestrator_scheduling`: from boot time 0 with the
extraction stage last run at 0, the ten 30-second ticks through `0 + 300`
fire the stage exactly once. -/
theorem orchestrator_scheduling_witness :
    countFires extractionStageName (bootLastRun 0)
      [0 + 30, 0 + 60, 0 + 90, 0 + 120, 0 + 150, 0 + 180, 0 + 210,
        0 + 240, 0 + 270, 0 + 300] = 1 :=
  orchestrator_scheduling.2.1 0 (bootLastRun 0) rfl
